import Mathlib

/-!
Verification development for the archicad-mcp sandboxed script execution
engine. The definitions below are a shallow embedding of the Python source:

* `src/archicad_mcp/config.py` — path security policy (`SecurityConfig`,
  `expand_pattern`, `normalize_for_match`, `matches_pattern`,
  `is_path_blocked`);
* `src/archicad_mcp/scripting/executor.py` — the script executor
  (`_is_write_mode`, `_create_safe_open`, `ScriptExecutor.run`,
  `_wrap_script`, `_process_result`, `_format_error`);
* `src/archicad_mcp/models.py` — `ScriptResult`.

Modelling conventions:

* Python `str` values are Lean `String`s; the handful of Python string
  primitives the source uses (`str.replace`, `str.split`, `str.strip`,
  `str.startswith`, the `in` substring test, `fnmatch.fnmatch`) are defined
  here structurally over `List Char` so that every definition evaluates by
  kernel reduction.
* The platform is Linux (`sys.platform == "linux"`): no case folding, `/`
  separators.  `Path.home()` and `tempfile.gettempdir()` are threaded through
  as explicit `home` / `temp` arguments.  `Path(path).expanduser()` is
  modelled as expansion of a leading `~`; `Path.resolve()` (filesystem
  canonicalisation of symlinks and relative components) is modelled as the
  identity, i.e. paths are taken to be already absolute and canonical.
* Effectful steps of `ScriptExecutor.run` (CPython compilation of the
  wrapped script, running the coroutine, the wall clock, the captured stdout
  buffer) are threaded through as explicit arguments describing the outcome
  of each step; the function itself is the exception/control flow of the
  Python method.  A raised Python exception is a `PyExc` value recording its
  class-level facts (`isSyntaxError`: instance of `SyntaxError`;
  `isException`: instance of `Exception`, which is false for
  BaseException-only classes such as `KeyboardInterrupt`), its message and
  its traceback.  `Except.error` models an exception escaping `run`.
-/

namespace ArchicadMCP

/-! ## Python string primitives, modelled structurally -/

/-- Python `needle in haystack` substring test, checking `isPrefixOf` at every
suffix of the haystack. -/
def containsSub (s sub : List Char) : Bool :=
  match s with
  | [] => sub.isPrefixOf []
  | _ :: rest => sub.isPrefixOf s || containsSub rest sub

/-- String-level wrapper for `containsSub`. -/
def strContains (s sub : String) : Bool :=
  containsSub s.data sub.data

/-- Fuel-driven worker for `pyReplace`; the fuel is an upper bound on the
number of characters consumed and is never exhausted when initialised with
`s.length`. -/
def pyReplaceAux : Nat → List Char → List Char → List Char → List Char
  | 0, s, _, _ => s
  | fuel + 1, s, pat, rep =>
    match s with
    | [] => []
    | c :: rest =>
      if pat ≠ [] ∧ pat.isPrefixOf s then
        rep ++ pyReplaceAux fuel (s.drop pat.length) pat rep
      else
        c :: pyReplaceAux fuel rest pat rep

/-- Python `s.replace(pat, rep)`: replace every non-overlapping occurrence,
scanning left to right. -/
def pyReplace (s pat rep : List Char) : List Char :=
  pyReplaceAux s.length s pat rep

/-- String-level wrapper for `pyReplace`. -/
def pyReplaceS (s pat rep : String) : String :=
  ⟨pyReplace s.data pat.data rep.data⟩

/-- Fuel-driven worker for `pySplit` (`cur` holds the current chunk,
reversed). -/
def pySplitAux : Nat → List Char → List Char → List Char → List (List Char)
  | 0, s, _, cur => [cur.reverse ++ s]
  | fuel + 1, s, sep, cur =>
    match s with
    | [] => [cur.reverse]
    | c :: rest =>
      if sep ≠ [] ∧ sep.isPrefixOf s then
        cur.reverse :: pySplitAux fuel (s.drop sep.length) sep []
      else
        pySplitAux fuel rest sep (c :: cur)

/-- Python `s.split(sep)` for a non-empty separator. -/
def pySplit (s sep : List Char) : List (List Char) :=
  pySplitAux s.length s sep []

/-- Python `str.isspace` on the characters `str.strip()` removes (ASCII
whitespace, which is all that occurs in this code base). -/
def pyIsSpace (c : Char) : Bool :=
  c = ' ' || c = '\t' || c = '\n' || c = '\r' || c = '\x0b' || c = '\x0c'

/-- Python `s.strip()`: drop leading and trailing whitespace. -/
def pyStrip (s : List Char) : List Char :=
  ((s.dropWhile pyIsSpace).reverse.dropWhile pyIsSpace).reverse

/-- Python `s.startswith(pre)`. -/
def pyStartsWith (s pre : String) : Bool :=
  pre.data.isPrefixOf s.data

/-! ## `fnmatch` glob matching

Model of CPython `fnmatch.fnmatch(name, pat)` on a POSIX platform
(`os.path.normcase` is the identity there): the pattern is compiled to a
token list (`*` → any run of characters, `?` → any single character,
`[...]` → character class with optional leading `!` negation and `a-b`
ranges, an unterminated `[` is a literal) and matched against the whole
name. -/

/-- One compiled glob pattern token. -/
inductive GlobTok where
  | star : GlobTok
  | anyChar : GlobTok
  | lit : Char → GlobTok
  | cls : Bool → List Char → GlobTok
deriving DecidableEq

/-- Split a character list at the first `]`, returning the content before it
and the remainder after it; `none` when no `]` occurs. -/
def findClose : List Char → Option (List Char × List Char)
  | [] => none
  | ']' :: rest => some ([], rest)
  | c :: rest => (findClose rest).map (fun p => (c :: p.1, p.2))

/-- Parse the inside of a `[...]` character class (the `[` already consumed):
returns (negated, raw content, remainder).  Mirrors `fnmatch.translate`: a
leading `!` negates, a `]` in first content position is literal content, and
a class with no closing `]` fails (the `[` is then treated as a literal). -/
def parseCls (ps : List Char) : Option (Bool × List Char × List Char) :=
  let (neg, ps1) :=
    match ps with
    | '!' :: r => (true, r)
    | _ => (false, ps)
  match ps1 with
  | ']' :: r2 => (findClose r2).map (fun p => (neg, ']' :: p.1, p.2))
  | _ => (findClose ps1).map (fun p => (neg, p.1, p.2))

/-- Fuel-driven worker for `compilePat`; fuel `ps.length` always suffices. -/
def compilePatAux : Nat → List Char → List GlobTok
  | 0, _ => []
  | fuel + 1, ps =>
    match ps with
    | [] => []
    | '*' :: rest => GlobTok.star :: compilePatAux fuel rest
    | '?' :: rest => GlobTok.anyChar :: compilePatAux fuel rest
    | '[' :: rest =>
      match parseCls rest with
      | some (neg, content, rem) => GlobTok.cls neg content :: compilePatAux fuel rem
      | none => GlobTok.lit '[' :: compilePatAux fuel rest
    | c :: rest => GlobTok.lit c :: compilePatAux fuel rest

/-- Compile a glob pattern to tokens. -/
def compilePat (ps : List Char) : List GlobTok :=
  compilePatAux ps.length ps

/-- Membership of a character in the raw content of a `[...]` class,
interpreting `a-b` as an inclusive range (a trailing `-` is literal). -/
def inCls (c : Char) : List Char → Bool
  | [] => false
  | a :: '-' :: b :: rest => (a.val ≤ c.val && c.val ≤ b.val) || inCls c rest
  | a :: rest => (c == a) || inCls c rest

/-- Fuel-driven worker for `globMatch`; fuel `ts.length + s.length + 1`
always suffices since every step shortens the tokens or the string. -/
def globMatchAux : Nat → List GlobTok → List Char → Bool
  | 0, _, _ => false
  | _ + 1, [], [] => true
  | _ + 1, [], _ :: _ => false
  | fuel + 1, GlobTok.star :: ts, s =>
    globMatchAux fuel ts s ||
      (match s with
       | [] => false
       | _ :: cs => globMatchAux fuel (GlobTok.star :: ts) cs)
  | fuel + 1, GlobTok.anyChar :: ts, _ :: cs => globMatchAux fuel ts cs
  | fuel + 1, GlobTok.cls neg content :: ts, c :: cs =>
      (neg != inCls c content) && globMatchAux fuel ts cs
  | fuel + 1, GlobTok.lit a :: ts, c :: cs => (a == c) && globMatchAux fuel ts cs
  | _ + 1, _ :: _, [] => false

/-- Match compiled glob tokens against a whole character list. -/
def globMatch (ts : List GlobTok) (s : List Char) : Bool :=
  globMatchAux (ts.length + s.length + 1) ts s

/-- `fnmatch.fnmatch(s, pat)` on POSIX: whole-string glob match. -/
def fnmatch (s pat : String) : Bool :=
  globMatch (compilePat pat.data) s.data

/-! ## `config.py` — the path security policy -/

/-- The two values of the `mode` literal in `SecurityConfig`. -/
inductive SecurityMode where
  | unrestricted : SecurityMode
  | sandboxed : SecurityMode
deriving DecidableEq

/-- `DEFAULT_BLOCKED_LINUX` from `config.py`. -/
def DEFAULT_BLOCKED_LINUX : List String :=
  ["/usr/*", "/bin/*", "/sbin/*", "/etc/*", "/var/*"]

/-- `DEFAULT_ALLOWED_WRITE` from `config.py`. -/
def DEFAULT_ALLOWED_WRITE : List String :=
  ["~/Desktop/*", "~/Documents/*", "${TEMP}/*"]

/-- `expand_pattern` from `config.py`: expand a leading `~` to the home
directory, expand `${TEMP}` to the temp directory, and normalise `\` to `/`.
`home` and `temp` stand for `Path.home()` and `tempfile.gettempdir()`. -/
def expand_pattern (home temp : String) (pattern : String) : String :=
  let p1 := if pyStartsWith pattern "~" then home ++ ⟨pattern.data.drop 1⟩ else pattern
  let p2 := pyReplaceS p1 "${TEMP}" temp
  pyReplaceS p2 "\\" "/"

/-- `normalize_for_match` from `config.py` (Linux): expand a leading `~`
(`Path.expanduser`), resolve to an absolute canonical path (`Path.resolve`,
modelled as the identity on already-canonical absolute paths), and normalise
`\` to `/`; no case folding off Windows. -/
def normalize_for_match (home : String) (path : String) : String :=
  let resolved := if pyStartsWith path "~" then home ++ ⟨path.data.drop 1⟩ else path
  pyReplaceS resolved "\\" "/"

/-- `matches_pattern` from `config.py` (Linux): normalise the path, expand
the pattern, and compare with `fnmatch.fnmatch`. -/
def matches_pattern (home temp : String) (path pattern : String) : Bool :=
  fnmatch (normalize_for_match home path) (expand_pattern home temp pattern)

/-- `SecurityConfig` from `config.py` (the dataclass fields; its
`cached_property`s are the functions below). -/
structure SecurityConfig where
  mode : SecurityMode := SecurityMode.unrestricted
  blocked_patterns : List String := DEFAULT_BLOCKED_LINUX
  allowed_write_patterns : List String := DEFAULT_ALLOWED_WRITE

/-- `SecurityConfig.blocked_expanded`: blocked patterns with placeholders
expanded. -/
def SecurityConfig.blocked_expanded (cfg : SecurityConfig) (home temp : String) : List String :=
  cfg.blocked_patterns.map (expand_pattern home temp)

/-- `SecurityConfig.allowed_write_expanded`: allowed write patterns with
placeholders expanded. -/
def SecurityConfig.allowed_write_expanded (cfg : SecurityConfig) (home temp : String) : List String :=
  cfg.allowed_write_patterns.map (expand_pattern home temp)

/-- `SecurityConfig.is_path_blocked` from `config.py`: blocked patterns are
checked first in every mode; only then, and only for a write in sandboxed
mode, is the allowlist consulted, with default deny. -/
def is_path_blocked (home temp : String) (cfg : SecurityConfig)
    (path : String) (for_write : Bool) : Bool :=
  if cfg.blocked_patterns.any (fun pattern => matches_pattern home temp path pattern) then
    true
  else if for_write = true ∧ cfg.mode = SecurityMode.sandboxed then
    if cfg.allowed_write_patterns.any (fun pattern => matches_pattern home temp path pattern) then
      false
    else
      true
  else
    false

/-! ## `executor.py` — safe `open` -/

/-- `WRITE_MODE_CHARS` from `executor.py`. -/
def WRITE_MODE_CHARS : List Char := ['w', 'x', 'a', '+']

/-- `_is_write_mode` from `executor.py`: `bool(set(mode) & WRITE_MODE_CHARS)`. -/
def is_write_mode (mode : String) : Bool :=
  mode.data.any (fun c => WRITE_MODE_CHARS.contains c)

/-- Outcome of the wrapped `safe_open` produced by `_create_safe_open`:
either it delegates to the real `open`, or it raises a `PermissionError`
whose message enumerates the allowed-write list (sandboxed write denial) or
the blocked list (blocked-directory denial). -/
inductive OpenOutcome where
  | opened : OpenOutcome
  | writeDenied : List String → OpenOutcome
  | accessDenied : List String → OpenOutcome
deriving DecidableEq

/-- Body of `safe_open` from `_create_safe_open`, after `is_write` has been
computed from the mode string. -/
def safe_open_check (home temp : String) (cfg : SecurityConfig)
    (file : String) (is_write : Bool) : OpenOutcome :=
  if is_path_blocked home temp cfg file is_write then
    if is_write = true ∧ cfg.mode = SecurityMode.sandboxed then
      OpenOutcome.writeDenied (cfg.allowed_write_expanded home temp)
    else
      OpenOutcome.accessDenied (cfg.blocked_expanded home temp)
  else
    OpenOutcome.opened

/-- `safe_open` from `_create_safe_open`: classify the mode string with
`_is_write_mode`, then check the path against the policy. -/
def safe_open (home temp : String) (cfg : SecurityConfig)
    (file : String) (mode : String := "r") : OpenOutcome :=
  safe_open_check home temp cfg file (is_write_mode mode)

/-! ## `executor.py` — result processing -/

/-- A Python value, at the granularity `_process_result` distinguishes:
`none` is Python `None`; lists are the only sequence type the truncation
test (`isinstance(result, list)`) accepts, tuples and strings are other
sequence values that fail it. -/
inductive PyValue where
  | none : PyValue
  | bool : Bool → PyValue
  | int : Int → PyValue
  | str : String → PyValue
  | list : List PyValue → PyValue
  | tuple : List PyValue → PyValue
  | dict : List (String × PyValue) → PyValue

/-- Observation: is the value a Python `dict`? -/
def PyValue.isDict : PyValue → Bool
  | PyValue.dict _ => true
  | _ => false

/-- Observation: is the value a Python `list`? -/
def PyValue.isList : PyValue → Bool
  | PyValue.list _ => true
  | _ => false

/-- `MAX_RESULT_ITEMS` from `executor.py`. -/
def MAX_RESULT_ITEMS : Nat := 500

/-- `SAMPLE_SIZE` from `executor.py`. -/
def SAMPLE_SIZE : Nat := 50

/-- The `warning` string `_process_result` builds for a list of `n` items. -/
def truncationWarning (n : Nat) : String :=
  "Result list has " ++ toString n ++ " items. Showing first " ++ toString SAMPLE_SIZE
    ++ ". Process data in script to return smaller results."

/-- `ScriptExecutor._process_result` from `executor.py`: a `list` longer than
`MAX_RESULT_ITEMS` becomes a summary dict; everything else passes through. -/
def process_result : PyValue → PyValue
  | PyValue.list xs =>
    if xs.length > MAX_RESULT_ITEMS then
      PyValue.dict
        [("total", PyValue.int xs.length),
         ("sample", PyValue.list (xs.take SAMPLE_SIZE)),
         ("truncated", PyValue.bool true),
         ("warning", PyValue.str (truncationWarning xs.length))]
    else
      PyValue.list xs
  | v => v

/-! ## `executor.py` — error formatting and the run loop -/

/-- One entry of `traceback.extract_tb`: the frame's filename and line
number. -/
structure Frame where
  filename : String
  lineno : Option Nat
deriving DecidableEq

/-- A raised Python exception, at the granularity `run` distinguishes:
`kind` is `type(exc).__name__`, `msg` is `str(exc)`, `isSyntaxError` and
`isException` record whether the class is an instance of `SyntaxError`
resp. `Exception` (false for BaseException-only classes such as
`KeyboardInterrupt`), `lineno` is the `SyntaxError.lineno` attribute, and
`tb` is `traceback.extract_tb(exc.__traceback__)`. -/
structure PyExc where
  kind : String
  msg : String
  isSyntaxError : Bool
  isException : Bool
  lineno : Option Nat
  tb : List Frame
deriving DecidableEq

/-- Python `f"{x}"` for an `int | None` value (`None` prints as `None`). -/
def linenoRepr : Option Nat → String
  | Option.some n => toString n
  | Option.none => "None"

/-- `ScriptExecutor._format_error` from `executor.py`: find the last
traceback frame compiled from `"<script>"` that carries a line number,
subtract the 3 wrapper lines, and if the resulting line is positive render
`Line <n>: <kind>: <msg>`, appending the stripped offending source line when
`n` is within the original script. -/
def format_error (exc : PyExc) (script : String) : String :=
  let script_line : Option Int :=
    (exc.tb.reverse.find? (fun f => f.filename == "<script>" && f.lineno.isSome)).bind
      (fun f => f.lineno.map (fun l => (l : Int) - 3))
  match script_line with
  | Option.some n =>
    if n ≠ 0 ∧ 0 < n then
      let lines := pySplit script.data "\n".data
      if 0 < n ∧ n ≤ (lines.length : Int) then
        "Line " ++ toString n ++ ": " ++ exc.kind ++ ": " ++ exc.msg
          ++ "\n  > " ++ (⟨pyStrip (lines.getD (n.toNat - 1) [])⟩ : String)
      else
        "Line " ++ toString n ++ ": " ++ exc.kind ++ ": " ++ exc.msg
    else
      exc.kind ++ ": " ++ exc.msg
  | Option.none => exc.kind ++ ": " ++ exc.msg

/-- The apostrophe character, used in the wrapper's final assignment line. -/
def singleQuote : Char := Char.ofNat 39

/-- `ScriptExecutor._wrap_script` from `executor.py`: indent every non-blank
line by four spaces and splice the script into an `async def` wrapper; the
script body starts 3 lines into the wrapped text. -/
def wrap_script (script : String) : String :=
  let indented : String :=
    ⟨List.intercalate "\n".data
      ((pySplit script.data "\n".data).map
        (fun line => if pyStrip line ≠ [] then "    ".data ++ line else line))⟩
  "\nasync def __script_main__():\n    result = None\n" ++ indented
    ++ "\n    globals()[" ++ (⟨[singleQuote]⟩ : String) ++ "result"
    ++ (⟨[singleQuote]⟩ : String) ++ "] = result\n\n__script_result__ = __script_main__()\n"

/-- `ScriptResult` from `models.py`.  `result` is `Any | None` with Python
`None` (= JSON null) modelled as `PyValue.none`; `error` is `str | None`. -/
structure ScriptResult where
  success : Bool
  result : PyValue
  stdout : String
  error : Option String
  execution_time_ms : Nat

/-- Outcome of awaiting the script coroutine: either it finished and the
namespace's `result` variable holds a value, or it raised. -/
inductive ExecOutcome where
  | ok : PyValue → ExecOutcome
  | raised : PyExc → ExecOutcome

/-- `ScriptExecutor.run` from `executor.py`, as the exception/control flow
of the Python method over the outcomes of its effectful steps:

* `compileRes` — outcome of `compile(self._wrap_script(script), "<script>",
  "exec")` together with the `exec` that defines the wrapper (an `Except.error`
  is the raised exception, for a malformed script a `SyntaxError` carrying
  CPython's line number *within the wrapped text*);
* `timedOut` — whether `asyncio.wait_for` raised `TimeoutError` (only
  reachable when a timeout is configured);
* `execRes` — outcome of awaiting the coroutine;
* `stdout` — contents of the `StringIO` capture buffer when `run` builds its
  result; `elapsed_ms` — the measured duration.

`Except.ok` is a returned `ScriptResult`; `Except.error` is an exception
escaping `run` (nothing is caught by `except SyntaxError`/`except
Exception` if the exception is neither). -/
def run (script : String) (timeout_seconds : Option Nat)
    (compileRes : Except PyExc Unit) (timedOut : Bool) (execRes : ExecOutcome)
    (stdout : String) (elapsed_ms : Nat) : Except PyExc ScriptResult :=
  let handle : PyExc → Except PyExc ScriptResult := fun e =>
    if e.isSyntaxError then
      Except.ok ⟨false, PyValue.none, stdout,
        Option.some ("Syntax error at line " ++ linenoRepr e.lineno ++ ": " ++ e.msg),
        elapsed_ms⟩
    else if e.isException then
      Except.ok ⟨false, PyValue.none, stdout,
        Option.some (format_error e script), elapsed_ms⟩
    else
      Except.error e
  match compileRes with
  | Except.error e => handle e
  | Except.ok _ =>
    let afterAwait : Except PyExc ScriptResult :=
      match execRes with
      | ExecOutcome.raised e => handle e
      | ExecOutcome.ok v =>
        Except.ok ⟨true, process_result v, stdout, Option.none, elapsed_ms⟩
    match timeout_seconds with
    | Option.some t =>
      if timedOut then
        Except.ok ⟨false, PyValue.none, stdout,
          Option.some ("Script timed out after " ++ toString t ++ " seconds"), elapsed_ms⟩
      else
        afterAwait
    | Option.none => afterAwait

/-! ## Helper lemmas -/

theorem isPrefixOf_refl (l : List Char) : l.isPrefixOf l = true := by
  induction l with
  | nil => rfl
  | cons a as ih => simp [List.isPrefixOf, ih]

theorem isPrefixOf_append_self (l r : List Char) : l.isPrefixOf (l ++ r) = true := by
  induction l with
  | nil => simp [List.isPrefixOf]
  | cons a as ih => simp [List.isPrefixOf, ih]

theorem containsSub_of_isPrefixOf {s sub : List Char} (h : sub.isPrefixOf s = true) :
    containsSub s sub = true := by
  cases s with
  | nil => simpa [containsSub] using h
  | cons c rest => simp [containsSub, h]

theorem containsSub_append_left (pre s sub : List Char) (h : containsSub s sub = true) :
    containsSub (pre ++ s) sub = true := by
  induction pre with
  | nil => simpa using h
  | cons c cs ih => simp [containsSub, ih]

theorem strData_append (a b : String) : (a ++ b).data = a.data ++ b.data := by
  cases a; cases b; rfl

theorem strContains_append_right (a sub : String) : strContains (a ++ sub) sub = true := by
  unfold strContains
  rw [strData_append]
  exact containsSub_append_left a.data sub.data sub.data
    (containsSub_of_isPrefixOf (isPrefixOf_refl sub.data))

theorem strContains_middle (a sub b : String) : strContains (a ++ sub ++ b) sub = true := by
  unfold strContains
  rw [strData_append, strData_append, List.append_assoc]
  exact containsSub_append_left a.data _ sub.data
    (containsSub_of_isPrefixOf (isPrefixOf_append_self sub.data b.data))

theorem strAppend_assoc (a b c : String) : a ++ b ++ c = a ++ (b ++ c) := by
  cases a; cases b; cases c
  show String.mk _ = String.mk _
  rw [List.append_assoc]

theorem strAppend_empty (a : String) : a ++ "" = a := by
  cases a
  show String.mk _ = String.mk _
  rw [List.append_nil]

theorem toString_int_coe (n : Nat) : toString ((n : Int)) = toString n := rfl

/-! ## Claims about the path policy (`config.py`) -/

/-- Claim C1: for every path, access intent (read or write) and security
mode, if the path matches at least one blocked pattern then
`is_path_blocked` returns `true`.  The blocked check is performed first and
returns immediately, so the allowlist is never consulted for such a path:
the denial holds even when the path also matches an allowed-write pattern
(the witness instantiates exactly that situation). -/
theorem C1_blocked_pattern_always_denies (home temp : String) (cfg : SecurityConfig)
    (path : String) (for_write : Bool)
    (h : ∃ p ∈ cfg.blocked_patterns, matches_pattern home temp path p = true) :
    is_path_blocked home temp cfg path for_write = true := by
  have hany : cfg.blocked_patterns.any
      (fun pattern => matches_pattern home temp path pattern) = true := by
    rcases h with ⟨p, hp, hm⟩
    exact List.any_eq_true.mpr ⟨p, hp, hm⟩
  unfold is_path_blocked
  simp [hany]

/-- Witness for C1: `/etc/passwd` matches the blocked pattern `/etc/*` and
also the allowed-write pattern `/etc/passwd`, and the sandboxed write is
still denied. -/
theorem C1_blocked_pattern_always_denies_witness :
    (∃ p ∈ (["/etc/*"] : List String),
        matches_pattern "/home/user" "/tmp" "/etc/passwd" p = true)
    ∧ is_path_blocked "/home/user" "/tmp"
        ⟨SecurityMode.sandboxed, ["/etc/*"], ["/etc/passwd"]⟩ "/etc/passwd" true = true :=
  ⟨by decide, C1_blocked_pattern_always_denies "/home/user" "/tmp"
      ⟨SecurityMode.sandboxed, ["/etc/*"], ["/etc/passwd"]⟩ "/etc/passwd" true (by decide)⟩

/-- Claim C2: in sandboxed mode, a write to a path matching no allowed-write
pattern is blocked (default deny), and a write to a path matching at least
one allowed-write pattern and no blocked pattern is permitted. -/
theorem C2_sandboxed_write_default_deny (home temp : String) (cfg : SecurityConfig)
    (path : String) (hmode : cfg.mode = SecurityMode.sandboxed) :
    ((∀ p ∈ cfg.allowed_write_patterns, matches_pattern home temp path p = false) →
        is_path_blocked home temp cfg path true = true)
    ∧ ((∃ p ∈ cfg.allowed_write_patterns, matches_pattern home temp path p = true) →
       (∀ p ∈ cfg.blocked_patterns, matches_pattern home temp path p = false) →
        is_path_blocked home temp cfg path true = false) := by
  constructor
  · intro hall
    have hna : cfg.allowed_write_patterns.any
        (fun pattern => matches_pattern home temp path pattern) = false := by
      rw [List.any_eq_false]
      intro p hp
      simp [hall p hp]
    unfold is_path_blocked
    by_cases hb : cfg.blocked_patterns.any
        (fun pattern => matches_pattern home temp path pattern) = true
    · simp [hb]
    · simp [hb, hmode, hna]
  · intro hex hnob
    have hna : cfg.allowed_write_patterns.any
        (fun pattern => matches_pattern home temp path pattern) = true := by
      rcases hex with ⟨p, hp, hm⟩
      exact List.any_eq_true.mpr ⟨p, hp, hm⟩
    have hnb : cfg.blocked_patterns.any
        (fun pattern => matches_pattern home temp path pattern) = false := by
      rw [List.any_eq_false]
      intro p hp
      simp [hnob p hp]
    unfold is_path_blocked
    simp [hnb, hmode, hna]

/-- Witness for C2, matching the spec's worked example: with allowlist
`~/Desktop/*`, a sandboxed write to `/tmp/x.txt` is denied and a sandboxed
write to `~/Desktop/out.txt` is permitted. -/
theorem C2_sandboxed_write_default_deny_witness :
    is_path_blocked "/home/user" "/tmp"
      ⟨SecurityMode.sandboxed, DEFAULT_BLOCKED_LINUX, ["~/Desktop/*"]⟩ "/tmp/x.txt" true = true
    ∧ is_path_blocked "/home/user" "/tmp"
      ⟨SecurityMode.sandboxed, DEFAULT_BLOCKED_LINUX, ["~/Desktop/*"]⟩
        "/home/user/Desktop/out.txt" true = false :=
  ⟨(C2_sandboxed_write_default_deny "/home/user" "/tmp"
      ⟨SecurityMode.sandboxed, DEFAULT_BLOCKED_LINUX, ["~/Desktop/*"]⟩ "/tmp/x.txt" rfl).1
      (by decide),
   (C2_sandboxed_write_default_deny "/home/user" "/tmp"
      ⟨SecurityMode.sandboxed, DEFAULT_BLOCKED_LINUX, ["~/Desktop/*"]⟩
      "/home/user/Desktop/out.txt" rfl).2 (by decide) (by decide)⟩

/-- Claim C3: the allowed-write list is never consulted for reads or in
unrestricted mode.  In unrestricted mode a write-intent check, and in
sandboxed mode a read-intent check, equal the blocked-pattern disjunction
alone — an expression independent of `allowed_write_patterns`, whatever that
list contains. -/
theorem C3_allowlist_only_for_sandboxed_writes (home temp : String) (cfg : SecurityConfig)
    (path : String) :
    (cfg.mode = SecurityMode.unrestricted →
      is_path_blocked home temp cfg path true
        = cfg.blocked_patterns.any (fun pattern => matches_pattern home temp path pattern))
    ∧ (cfg.mode = SecurityMode.sandboxed →
      is_path_blocked home temp cfg path false
        = cfg.blocked_patterns.any (fun pattern => matches_pattern home temp path pattern)) := by
  constructor
  · intro hm
    unfold is_path_blocked
    by_cases hb : cfg.blocked_patterns.any
        (fun pattern => matches_pattern home temp path pattern) = true
    · simp [hb]
    · simp only [Bool.not_eq_true] at hb
      simp [hb, hm]
  · intro hm
    unfold is_path_blocked
    by_cases hb : cfg.blocked_patterns.any
        (fun pattern => matches_pattern home temp path pattern) = true
    · simp [hb]
    · simp only [Bool.not_eq_true] at hb
      simp [hb]

/-- Witness for C3: an unrestricted write check and a sandboxed read check
both equal the blocked disjunction, with a non-empty allowlist present. -/
theorem C3_allowlist_only_for_sandboxed_writes_witness :
    is_path_blocked "/home/user" "/tmp"
      ⟨SecurityMode.unrestricted, ["/etc/*"], ["~/Desktop/*"]⟩ "/data/x.txt" true
      = (["/etc/*"] : List String).any
          (fun pattern => matches_pattern "/home/user" "/tmp" "/data/x.txt" pattern)
    ∧ is_path_blocked "/home/user" "/tmp"
      ⟨SecurityMode.sandboxed, ["/etc/*"], ["~/Desktop/*"]⟩ "/etc/hosts" false
      = (["/etc/*"] : List String).any
          (fun pattern => matches_pattern "/home/user" "/tmp" "/etc/hosts" pattern) :=
  ⟨(C3_allowlist_only_for_sandboxed_writes "/home/user" "/tmp"
      ⟨SecurityMode.unrestricted, ["/etc/*"], ["~/Desktop/*"]⟩ "/data/x.txt").1 rfl,
   (C3_allowlist_only_for_sandboxed_writes "/home/user" "/tmp"
      ⟨SecurityMode.sandboxed, ["/etc/*"], ["~/Desktop/*"]⟩ "/etc/hosts").2 rfl⟩

/-! ## Claims about the executor (`executor.py`) -/

/-- Shape of every `ScriptResult` that `run` returns: either a success with
no error, or a failure with an error message and a null result. -/
theorem run_result_shape (script : String) (t : Option Nat)
    (compileRes : Except PyExc Unit) (timedOut : Bool) (execRes : ExecOutcome)
    (stdout : String) (ms : Nat) (r : ScriptResult)
    (h : run script t compileRes timedOut execRes stdout ms = Except.ok r) :
    (r.success = true ∧ r.error = Option.none)
    ∨ (r.success = false ∧ r.error.isSome = true ∧ r.result = PyValue.none) := by
  have hhandle : ∀ e : PyExc, ∀ r' : ScriptResult,
      (if e.isSyntaxError then
        Except.ok (⟨false, PyValue.none, stdout,
          Option.some ("Syntax error at line " ++ linenoRepr e.lineno ++ ": " ++ e.msg),
          ms⟩ : ScriptResult)
      else if e.isException then
        Except.ok (⟨false, PyValue.none, stdout,
          Option.some (format_error e script), ms⟩ : ScriptResult)
      else
        Except.error e) = Except.ok r' →
      r'.success = false ∧ r'.error.isSome = true ∧ r'.result = PyValue.none := by
    intro e r' h'
    by_cases hs : e.isSyntaxError = true
    · rw [if_pos hs] at h'
      cases h'
      exact ⟨rfl, rfl, rfl⟩
    · rw [if_neg hs] at h'
      by_cases hx : e.isException = true
      · rw [if_pos hx] at h'
        cases h'
        exact ⟨rfl, rfl, rfl⟩
      · rw [if_neg hx] at h'
        cases h'
  unfold run at h
  cases compileRes with
  | error e => exact Or.inr (hhandle e r h)
  | ok u =>
    have hafter : ∀ r' : ScriptResult,
        (match execRes with
         | ExecOutcome.raised e =>
           if e.isSyntaxError then
             Except.ok (⟨false, PyValue.none, stdout,
               Option.some ("Syntax error at line " ++ linenoRepr e.lineno ++ ": " ++ e.msg),
               ms⟩ : ScriptResult)
           else if e.isException then
             Except.ok (⟨false, PyValue.none, stdout,
               Option.some (format_error e script), ms⟩ : ScriptResult)
           else
             Except.error e
         | ExecOutcome.ok v =>
           Except.ok (⟨true, process_result v, stdout, Option.none, ms⟩ : ScriptResult))
          = Except.ok r' →
        (r'.success = true ∧ r'.error = Option.none)
        ∨ (r'.success = false ∧ r'.error.isSome = true ∧ r'.result = PyValue.none) := by
      intro r' h'
      cases execRes with
      | raised e => exact Or.inr (hhandle e r' h')
      | ok v =>
        cases h'
        exact Or.inl ⟨rfl, rfl⟩
    cases t with
    | none => exact hafter r h
    | some n =>
      cases timedOut with
      | true =>
        cases h
        exact Or.inr ⟨rfl, rfl, rfl⟩
      | false => exact hafter r h

/-- Claim C4 (amended): `run` returns a `ScriptResult` — it never lets an
exception escape — whenever every exception produced by compiling or by the
script is a `SyntaxError` or an instance of `Exception`.  The Python
handlers are `except SyntaxError` and `except Exception`, so an exception
deriving only from `BaseException` (such as `KeyboardInterrupt`, available
to unrestricted-mode scripts) is not caught and propagates to the caller;
that is the counterexample to the claim as originally stated. -/
theorem C4_run_captures_exceptions (script : String) (t : Option Nat)
    (compileRes : Except PyExc Unit) (timedOut : Bool) (execRes : ExecOutcome)
    (stdout : String) (ms : Nat)
    (hc : ∀ e, compileRes = Except.error e → e.isSyntaxError = true ∨ e.isException = true)
    (he : ∀ e, execRes = ExecOutcome.raised e → e.isSyntaxError = true ∨ e.isException = true) :
    ∃ r, run script t compileRes timedOut execRes stdout ms = Except.ok r := by
  have hhandle : ∀ e : PyExc, e.isSyntaxError = true ∨ e.isException = true →
      ∃ r : ScriptResult,
      (if e.isSyntaxError then
        Except.ok (⟨false, PyValue.none, stdout,
          Option.some ("Syntax error at line " ++ linenoRepr e.lineno ++ ": " ++ e.msg),
          ms⟩ : ScriptResult)
      else if e.isException then
        Except.ok (⟨false, PyValue.none, stdout,
          Option.some (format_error e script), ms⟩ : ScriptResult)
      else
        Except.error e) = Except.ok r := by
    intro e hdisj
    by_cases hs : e.isSyntaxError = true
    · exact ⟨_, by rw [if_pos hs]⟩
    · rcases hdisj with hdisj | hdisj
      · exact absurd hdisj hs
      · exact ⟨_, by rw [if_neg hs, if_pos hdisj]⟩
  unfold run
  cases compileRes with
  | error e => exact hhandle e (hc e rfl)
  | ok u =>
    have hafter : ∃ r : ScriptResult,
        (match execRes with
         | ExecOutcome.raised e =>
           if e.isSyntaxError then
             Except.ok (⟨false, PyValue.none, stdout,
               Option.some ("Syntax error at line " ++ linenoRepr e.lineno ++ ": " ++ e.msg),
               ms⟩ : ScriptResult)
           else if e.isException then
             Except.ok (⟨false, PyValue.none, stdout,
               Option.some (format_error e script), ms⟩ : ScriptResult)
           else
             Except.error e
         | ExecOutcome.ok v =>
           Except.ok (⟨true, process_result v, stdout, Option.none, ms⟩ : ScriptResult))
          = Except.ok r := by
      cases execRes with
      | raised e => exact hhandle e (he e rfl)
      | ok v => exact ⟨_, rfl⟩
    cases t with
    | none => exact hafter
    | some n =>
      cases timedOut with
      | true => exact ⟨_, rfl⟩
      | false => exact hafter

/-- Witness for C4: a script-raised `ValueError` (an `Exception`) is
captured and `run` returns a result. -/
theorem C4_run_captures_exceptions_witness :
    ∃ r, run "raise ValueError" Option.none (Except.ok ()) false
      (ExecOutcome.raised
        ⟨"ValueError", "boom", false, true, Option.none, [⟨"<script>", Option.some 4⟩]⟩)
      "" 3 = Except.ok r :=
  C4_run_captures_exceptions "raise ValueError" Option.none (Except.ok ()) false
    (ExecOutcome.raised
      ⟨"ValueError", "boom", false, true, Option.none, [⟨"<script>", Option.some 4⟩]⟩)
    "" 3 (fun e h => nomatch h)
    (fun e h => by injection h with h1; exact Or.inr (h1 ▸ rfl))

/-- Counterexample to C4 as stated: a script that raises
`KeyboardInterrupt` (a `BaseException` that is not an `Exception`, reachable
in unrestricted mode where the full builtins are exposed) makes `run` raise:
the call evaluates to `Except.error`, not to a returned `ScriptResult`. -/
theorem C4_counterexample_base_exception_escapes :
    run "raise KeyboardInterrupt" Option.none (Except.ok ()) false
      (ExecOutcome.raised
        ⟨"KeyboardInterrupt", "", false, false, Option.none, [⟨"<script>", Option.some 4⟩]⟩)
      "" 0
    = Except.error
        ⟨"KeyboardInterrupt", "", false, false, Option.none, [⟨"<script>", Option.some 4⟩]⟩ :=
  rfl

set_option maxRecDepth 8000 in
/-- Claim C5 (code bug): the wrapper puts the first script line at line 4 of
the wrapped text (conjunct 1), so for the malformed one-line script
`def f(:` CPython raises `SyntaxError` with `lineno = 4`; the
`except SyntaxError` handler interpolates that lineno without subtracting
the 3 wrapper lines, reporting line 4 where the original (and the spec, and
the runtime path `_format_error`, which does subtract 3) requires line 1
(conjuncts 2 and 3).  Conjunct 4: on a compile error the execution outcome
is never consulted — the script is never executed. -/
theorem C5_syn_error_lineno_unadjusted :
    (pySplit (wrap_script "def f(:").data "\n".data).getD 3 [] = "    def f(:".data
    ∧ run "def f(:" Option.none
        (Except.error ⟨"SyntaxError", "invalid syntax", true, true, Option.some 4, []⟩)
        false (ExecOutcome.ok PyValue.none) "" 0
      = Except.ok ⟨false, PyValue.none, "",
          Option.some "Syntax error at line 4: invalid syntax", 0⟩
    ∧ strContains "Syntax error at line 4: invalid syntax" "line 1" = false
    ∧ (∀ (execRes : ExecOutcome) (timedOut : Bool),
        run "def f(:" Option.none
          (Except.error ⟨"SyntaxError", "invalid syntax", true, true, Option.some 4, []⟩)
          timedOut execRes "" 0
        = run "def f(:" Option.none
          (Except.error ⟨"SyntaxError", "invalid syntax", true, true, Option.some 4, []⟩)
          false (ExecOutcome.ok PyValue.none) "" 0) :=
  ⟨rfl, rfl, by decide, fun _ _ => rfl⟩

/-- Claim C6 (amended): when the last `"<script>"` frame of the traceback
carries line number `l`, and `l ≥ 4` (the frame lies inside the spliced
script body, not on one of the 3 wrapper lines), `_format_error` renders
`Line <l-3>: <ErrorKind>: <message>` — the line number mapped back into the
original unwrapped script — and, when `l - 3` is within the script, the
error also contains the stripped offending source line.  A frame on a
wrapper line (`l ≤ 3`) is instead rendered without any line prefix, which
is the counterexample to the claim's unconditional format. -/
theorem C6_runtime_error_line_mapping (e : PyExc) (script : String) (l : Nat)
    (hfind : e.tb.reverse.find? (fun f => f.filename == "<script>" && f.lineno.isSome)
             = Option.some ⟨"<script>", Option.some l⟩)
    (hl : 4 ≤ l) :
    (∃ rest, format_error e script
        = "Line " ++ toString (l - 3) ++ ": " ++ e.kind ++ ": " ++ e.msg ++ rest)
    ∧ (l - 3 ≤ (pySplit script.data "\n".data).length →
        strContains (format_error e script)
          (⟨pyStrip ((pySplit script.data "\n".data).getD (l - 3 - 1) [])⟩ : String) = true) := by
  have hfe : format_error e script =
      (if ((l : Int) - 3) ≠ 0 ∧ 0 < ((l : Int) - 3) then
        if 0 < ((l : Int) - 3)
            ∧ ((l : Int) - 3) ≤ ((pySplit script.data "\n".data).length : Int) then
          "Line " ++ toString ((l : Int) - 3) ++ ": " ++ e.kind ++ ": " ++ e.msg
            ++ "\n  > "
            ++ (⟨pyStrip ((pySplit script.data "\n".data).getD
                  (((l : Int) - 3).toNat - 1) [])⟩ : String)
        else
          "Line " ++ toString ((l : Int) - 3) ++ ": " ++ e.kind ++ ": " ++ e.msg
      else
        e.kind ++ ": " ++ e.msg) := by
    unfold format_error
    rw [hfind]
    rfl
  have hn0 : ((l : Int) - 3) ≠ 0 ∧ 0 < ((l : Int) - 3) := by
    constructor <;> omega
  rw [hfe, if_pos hn0]
  have hcast : ((l : Int) - 3) = ((l - 3 : Nat) : Int) := by omega
  have htnat : ((l : Int) - 3).toNat = l - 3 := by omega
  rw [htnat, hcast, toString_int_coe]
  by_cases hle : l - 3 ≤ (pySplit script.data "\n".data).length
  · have hcond : (0 : Int) < ((l - 3 : Nat) : Int)
        ∧ ((l - 3 : Nat) : Int) ≤ ((pySplit script.data "\n".data).length : Int) := by
      constructor <;> omega
    rw [if_pos hcond]
    constructor
    · exact ⟨"\n  > "
        ++ (⟨pyStrip ((pySplit script.data "\n".data).getD (l - 3 - 1) [])⟩ : String),
        by rw [strAppend_assoc]⟩
    · intro _
      exact strContains_append_right _ _
  · have hcond : ¬((0 : Int) < ((l - 3 : Nat) : Int)
        ∧ ((l - 3 : Nat) : Int) ≤ ((pySplit script.data "\n".data).length : Int)) := by
      intro hcontra
      omega
    rw [if_neg hcond]
    constructor
    · exact ⟨"", by rw [strAppend_empty]⟩
    · intro hx
      exact absurd hx hle

/-- Witness for C6 at a concrete input (the repository's own
division-by-zero test script): the deepest script frame is at wrapped line
6, mapped to original line 3, and the stripped offending line `z = x / y`
appears in the error. -/
theorem C6_runtime_error_line_mapping_witness :
    (([⟨"<module>", Option.some 10⟩,
        (⟨"<script>", Option.some 6⟩ : Frame)] : List Frame).reverse.find?
        (fun f => f.filename == "<script>" && f.lineno.isSome)
      = Option.some ⟨"<script>", Option.some 6⟩)
    ∧ 4 ≤ 6
    ∧ ((∃ rest,
        format_error
          ⟨"ZeroDivisionError", "division by zero", false, true, Option.none,
            [⟨"<module>", Option.some 10⟩, ⟨"<script>", Option.some 6⟩]⟩
          "x = 1\ny = 0\nz = x / y\nresult = z"
        = "Line " ++ toString (6 - 3) ++ ": " ++ "ZeroDivisionError" ++ ": "
            ++ "division by zero" ++ rest)
      ∧ (6 - 3 ≤ (pySplit ("x = 1\ny = 0\nz = x / y\nresult = z").data "\n".data).length →
          strContains
            (format_error
              ⟨"ZeroDivisionError", "division by zero", false, true, Option.none,
                [⟨"<module>", Option.some 10⟩, ⟨"<script>", Option.some 6⟩]⟩
              "x = 1\ny = 0\nz = x / y\nresult = z")
            (⟨pyStrip ((pySplit ("x = 1\ny = 0\nz = x / y\nresult = z").data "\n".data).getD
                (6 - 3 - 1) [])⟩ : String) = true)) :=
  ⟨by decide, by decide,
    C6_runtime_error_line_mapping
      ⟨"ZeroDivisionError", "division by zero", false, true, Option.none,
        [⟨"<module>", Option.some 10⟩, ⟨"<script>", Option.some 6⟩]⟩
      "x = 1\ny = 0\nz = x / y\nresult = z" 6 (by decide) (by decide)⟩

/-- Counterexample to C6 as stated: an exception whose only script frame
lies on wrapper line 3 has `n = 3 - 3 = 0`, and `_format_error` renders it
with no `Line <n>:` prefix at all, while the claim's format demands
`Line 0: ValueError: boom`. -/
theorem C6_counterexample_wrapper_line_frame :
    format_error
      ⟨"ValueError", "boom", false, true, Option.none, [⟨"<script>", Option.some 3⟩]⟩
      "x = 1"
      = "ValueError: boom"
    ∧ strContains "ValueError: boom" "Line" = false :=
  ⟨rfl, by decide⟩

/-- Claim C7 (amended): `_process_result` replaces exactly the `list` values
longer than 500 elements by the summary dictionary (total element count,
first-50 sample, `truncated = true`, human-readable warning); lists of at
most 500 elements pass through unchanged, and every non-`list` value —
including other Python sequences such as tuples and strings, which fail the
`isinstance(result, list)` test — passes through unchanged.  The function is
total: normalization never raises. -/
theorem C7_truncation_only_lists (xs : List PyValue) (v : PyValue) :
    (xs.length > 500 →
      process_result (PyValue.list xs)
        = PyValue.dict
            [("total", PyValue.int xs.length),
             ("sample", PyValue.list (xs.take 50)),
             ("truncated", PyValue.bool true),
             ("warning", PyValue.str (truncationWarning xs.length))])
    ∧ (xs.length ≤ 500 → process_result (PyValue.list xs) = PyValue.list xs)
    ∧ (PyValue.isList v = false → process_result v = v) := by
  refine ⟨?_, ?_, ?_⟩
  · intro h
    show (if xs.length > MAX_RESULT_ITEMS then _ else _) = _
    rw [if_pos (by simpa [MAX_RESULT_ITEMS] using h)]
    rfl
  · intro h
    show (if xs.length > MAX_RESULT_ITEMS then _ else _) = _
    rw [if_neg (by simp [MAX_RESULT_ITEMS]; omega)]
  · intro h
    cases v <;> simp_all [process_result, PyValue.isList]

set_option maxRecDepth 8000 in
/-- Witness for C7: a 501-element list is replaced by the summary dict, a
500-element list and a non-list value pass through. -/
theorem C7_truncation_only_lists_witness :
    ((List.replicate 501 (PyValue.int 0)).length > 500
      ∧ process_result (PyValue.list (List.replicate 501 (PyValue.int 0)))
        = PyValue.dict
            [("total", PyValue.int (List.replicate 501 (PyValue.int 0)).length),
             ("sample", PyValue.list ((List.replicate 501 (PyValue.int 0)).take 50)),
             ("truncated", PyValue.bool true),
             ("warning", PyValue.str
                (truncationWarning (List.replicate 501 (PyValue.int 0)).length))])
    ∧ ((List.replicate 500 (PyValue.int 0)).length ≤ 500
      ∧ process_result (PyValue.list (List.replicate 500 (PyValue.int 0)))
        = PyValue.list (List.replicate 500 (PyValue.int 0))) :=
  ⟨⟨by simp, (C7_truncation_only_lists (List.replicate 501 (PyValue.int 0)) PyValue.none).1
      (by simp)⟩,
   ⟨by simp, (C7_truncation_only_lists (List.replicate 500 (PyValue.int 0)) PyValue.none).2.1
      (by simp)⟩⟩

/-- Counterexample to C7 as stated: a tuple of 501 elements is a Python
sequence exceeding the cap, yet it passes through unchanged — it is not
replaced by a summary dictionary. -/
theorem C7_counterexample_long_tuple_passes :
    process_result (PyValue.tuple (List.replicate 501 (PyValue.int 0)))
      = PyValue.tuple (List.replicate 501 (PyValue.int 0))
    ∧ PyValue.isDict (process_result (PyValue.tuple (List.replicate 501 (PyValue.int 0))))
      = false :=
  ⟨rfl, rfl⟩

/-- Claim C8: when a timeout `t` is configured and exceeded, `run` returns a
failure result whose `result` is null, whose error string is
`Script timed out after <t> seconds` — which contains the configured value
`t` as a substring — and whose `stdout` is exactly the output captured
before cancellation. -/
theorem C8_timeout_preserves_output (script : String) (t : Nat) (execRes : ExecOutcome)
    (stdout : String) (ms : Nat) :
    run script (Option.some t) (Except.ok ()) true execRes stdout ms
      = Except.ok ⟨false, PyValue.none, stdout,
          Option.some ("Script timed out after " ++ toString t ++ " seconds"), ms⟩
    ∧ strContains ("Script timed out after " ++ toString t ++ " seconds") (toString t)
      = true := by
  refine ⟨rfl, ?_⟩
  exact strContains_middle "Script timed out after " (toString t) " seconds"

/-- Claim C9: every `ScriptResult` returned by `run` satisfies
`success = false` iff the error field is present and the result value is
null. -/
theorem C9_success_error_invariant (script : String) (t : Option Nat)
    (compileRes : Except PyExc Unit) (timedOut : Bool) (execRes : ExecOutcome)
    (stdout : String) (ms : Nat) (r : ScriptResult)
    (h : run script t compileRes timedOut execRes stdout ms = Except.ok r) :
    r.success = false ↔ (r.error.isSome = true ∧ r.result = PyValue.none) := by
  rcases run_result_shape script t compileRes timedOut execRes stdout ms r h with
    ⟨hs, he⟩ | ⟨hs, he, hr⟩
  · rw [hs, he]
    simp
  · rw [hs, he, hr]
    simp

/-- Witness for C9 at a concrete returned result (a timed-out run): the
returned record has `success = false`, a present error and a null result,
and the invariant holds for it. -/
theorem C9_success_error_invariant_witness :
    run "x = 1" (Option.some 2) (Except.ok ()) true (ExecOutcome.ok PyValue.none) "out" 5
      = Except.ok ⟨false, PyValue.none, "out",
          Option.some "Script timed out after 2 seconds", 5⟩
    ∧ ((false : Bool) = false ↔
        ((Option.some "Script timed out after 2 seconds").isSome = true
          ∧ PyValue.none = PyValue.none)) :=
  ⟨rfl,
   C9_success_error_invariant "x = 1" (Option.some 2) (Except.ok ()) true
     (ExecOutcome.ok PyValue.none) "out" 5
     ⟨false, PyValue.none, "out", Option.some "Script timed out after 2 seconds", 5⟩ rfl⟩

/-- Claim C10: `_is_write_mode` classifies an open as a write iff the mode
string contains at least one of `w`, `x`, `a`, `+`; consequently the
intercepted `safe_open` checks a `r+` open with write intent (so it is
subject to the sandboxed allowlist like any write) and plain `r` / `rb`
opens with read intent (blocked patterns only). -/
theorem C10_write_mode_classification :
    (∀ mode : String, is_write_mode mode = true ↔
        ∃ c, c ∈ mode.data ∧ (c = 'w' ∨ c = 'x' ∨ c = 'a' ∨ c = '+'))
    ∧ (is_write_mode "r+" = true ∧ is_write_mode "r" = false ∧ is_write_mode "rb" = false)
    ∧ (∀ (home temp : String) (cfg : SecurityConfig) (file : String),
        safe_open home temp cfg file "r+" = safe_open_check home temp cfg file true
        ∧ safe_open home temp cfg file "r" = safe_open_check home temp cfg file false
        ∧ safe_open home temp cfg file "rb" = safe_open_check home temp cfg file false) := by
  refine ⟨?_, by decide, fun home temp cfg file => ⟨rfl, rfl, rfl⟩⟩
  intro mode
  unfold is_write_mode WRITE_MODE_CHARS
  rw [List.any_eq_true]
  constructor
  · rintro ⟨c, hc, hmem⟩
    refine ⟨c, hc, ?_⟩
    have : c ∈ ['w', 'x', 'a', '+'] := by
      simpa [List.contains] using hmem
    simpa using this
  · rintro ⟨c, hc, hor⟩
    refine ⟨c, hc, ?_⟩
    have : c ∈ ['w', 'x', 'a', '+'] := by
      rcases hor with h | h | h | h <;> subst h <;> decide
    simpa [List.contains] using this

/-- Witness for C10: `r+` is classified as a write. -/
theorem C10_write_mode_classification_witness :
    is_write_mode "r+" = true :=
  (C10_write_mode_classification.1 "r+").mpr ⟨'+', by decide, by decide⟩

end ArchicadMCP
